import Mathlib

/-!
Shallow embedding of the ibeam credential-resolution core:
`src/ibeam/src/handlers/db_handler.py` (`DatabaseHandler`) and
`src/ibeam/src/handlers/secrets_handler.py` (`SecretsHandler`).

External systems (the MySQL policy store, the filesystem, the two GCP HTTP
endpoints, base64 decoding and `os.environ`) are modelled as explicit
parameters (`PolicyStore`, `World`).  Python exceptions that escape to the
caller are modelled with `Except`; exceptions that the source catches are
folded into the result the handler produces for them, exactly as the
source's `except` blocks do.  Logging is not modelled.
-/

/-- Python `str.lstrip(chars)`: drop leading characters that are members of
`chars` (source `secrets_handler.py` lines 128-129, 146-147). -/
def pyLstrip (s : String) (chars : String) : String :=
  String.mk (s.data.dropWhile (fun c => chars.data.contains c))

/-- Python `str.rstrip(chars)`: drop trailing characters that are members of
`chars` (source `secrets_handler.py` lines 131-132, 149-150). -/
def pyRstrip (s : String) (chars : String) : String :=
  String.mk ((s.data.reverse.dropWhile (fun c => chars.data.contains c)).reverse)

/-- Python `str.lower()` on the ASCII values the decision normalization
compares against (`db_handler.py` line 85): per-character lowercase. -/
def pyLower (s : String) : String :=
  String.mk (s.data.map Char.toLower)

/-- Apply the optional strips in source order: `lstrip` first, then `rstrip`
(`secrets_handler.py` lines 128-132 and 146-150). -/
def applyStrips (v : String) (lstrip rstrip : Option String) : String :=
  let v1 := match lstrip with
    | none => v
    | some cs => pyLstrip v cs
  match rstrip with
  | none => v1
  | some cs => pyRstrip v1 cs

/-- Python truthiness of an `Optional[bool]`: `None` and `False` are falsy. -/
def optTrue : Option Bool → Bool
  | some true => true
  | _ => false

/-- Python truthiness of an `Optional[str]`: `None` and `''` are falsy. -/
def optNonEmpty : Option String → Bool
  | some s => !(s == "")
  | none => false

/-- A value stored in the policy-store decision column, as the dynamic type
cases that `should_use_paper_account` distinguishes (`db_handler.py`
lines 80-87): `bool`, `int`, `str`, or anything else (e.g. a list). -/
inductive DBValue
  | vBool (b : Bool)
  | vInt (n : Int)
  | vStr (s : String)
  | vOther
deriving DecidableEq

/-- The truthiness normalization of the decision column value, embedding
`db_handler.py` lines 80-87: `bool` as-is; `int` via Python `bool(value)`
(nonzero); `str` via `value.lower() in ('true', '1', 'yes', 'on')`;
any other type maps to `False`. -/
def normalizeDBValue : DBValue → Bool
  | .vBool b => b
  | .vInt n => n != 0
  | .vStr s => ["true", "1", "yes", "on"].contains (pyLower s)
  | .vOther => false

/-- The normalization as the spec's §4.2 step 6 words it: "native boolean
as-is; integer via nonzero test; string via case-insensitive membership in
\x7b"true","1","yes","on"\x7d; any other type maps to false".  Written from
the spec sentence, for comparison with `normalizeDBValue`. -/
def normalizeDecisionSpec : DBValue → Bool
  | .vBool b => b
  | .vInt n => decide (n ≠ 0)
  | .vStr s => decide (pyLower s ∈ ["true", "1", "yes", "on"])
  | .vOther => false

/-- The external MySQL policy store as `should_use_paper_account` can observe
it.  `connects` models whether `pymysql.connect` succeeds (a failed import of
`pymysql` is observationally the same: an exception before any row is read).
`hasValueColumn` models whether the `IBEAM` table has the `value` column that
the source's SQL (`SELECT value FROM IBEAM WHERE machine_name = %s`,
`db_handler.py` line 66) projects; when it is absent the query raises an
unknown-column error.  `valueRows` maps `machine_name` to the `value` column
content; `legacyRows` records content a legacy `use_paper_account` column
would hold — the source's SQL never reads it. -/
structure PolicyStore where
  connects : Bool
  hasValueColumn : Bool
  valueRows : List (String × DBValue)
  legacyRows : List (String × DBValue)

/-- Outcome of the connect-and-query block (`db_handler.py` lines 55-68):
an exception anywhere in it (connection failure, missing `pymysql`, unknown
column), no matching row, or the matching row's `value` column. -/
inductive QueryOutcome
  | connError
  | noRow
  | row (v : DBValue)

/-- Run the source's point lookup against the modelled store. -/
def runQuery (store : PolicyStore) (machine : String) : QueryOutcome :=
  if store.connects = false then .connError
  else if store.hasValueColumn = false then .connError
  else
    match store.valueRows.find? (fun p => p.1 == machine) with
    | none => .noRow
    | some p => .row p.2

/-- The `DatabaseHandler` instance state (`db_handler.py` lines 14-22).
`use_paper` is the memo cell `self._use_paper`, initialized to `None`. -/
structure DatabaseHandler where
  db_host : Option String
  db_user : Option String
  db_password : Option String
  db_name : Option String
  machine_name : Option String
  use_paper : Option Bool
deriving DecidableEq

/-- The required-configuration test of `db_handler.py` lines 38-44:
`DBPASSWORD` is intentionally excluded; the other four must be non-`None`. -/
def DatabaseHandler.missingConfig (h : DatabaseHandler) : Bool :=
  h.db_host.isNone || h.db_user.isNone || h.db_name.isNone || h.machine_name.isNone

/-- Result of one call to `should_use_paper_account`: the returned bool, the
updated handler state, and whether a store connection/query was attempted
(`queried` is true exactly when control reached the `try` block at
`db_handler.py` line 49). -/
structure CallResult where
  result : Bool
  handler : DatabaseHandler
  queried : Bool

/-- Embedding of `DatabaseHandler.should_use_paper_account`
(`db_handler.py` lines 24-102):
memo hit returns immediately (line 32-33); missing configuration returns
`False` WITHOUT writing the memo (lines 44-47); otherwise the store is
queried and every path — exception (lines 95-102), no row (lines 70-73),
row found (lines 76-90) — writes the memo before returning. -/
def DatabaseHandler.should_use_paper_account (store : PolicyStore)
    (h : DatabaseHandler) : CallResult :=
  match h.use_paper with
  | some b => ⟨b, h, false⟩
  | none =>
    if h.missingConfig then ⟨false, h, false⟩
    else
      match runQuery store (h.machine_name.getD "") with
      | .connError => ⟨false, { h with use_paper := some false }, true⟩
      | .noRow => ⟨false, { h with use_paper := some false }, true⟩
      | .row v =>
        let d := normalizeDBValue v
        ⟨d, { h with use_paper := some d }, true⟩

/-- Total number of store queries issued by `n` sequential calls to
`should_use_paper_account`, each starting from the state the previous call
left behind. -/
def seqQueries : Nat → PolicyStore → DatabaseHandler → Nat
  | 0, _, _ => 0
  | Nat.succ n, store, h =>
    let r := DatabaseHandler.should_use_paper_account store h
    (if r.queried then 1 else 0) + seqQueries n store r.handler

/-- Embedding of `DatabaseHandler.configure_paper_account_env`
(`db_handler.py` lines 104-131).  The environment is modelled as a map; the
function returns the updated handler (the internal policy call may set the
memo) and the updated environment.  Writes happen only when the policy call
returns true AND both paper credentials are truthy (non-`None`, non-empty);
then the source writes `IBEAM_USE_PAPER_ACCOUNT`, `IBEAM_ACCOUNT` and
`IBEAM_PASSWORD` in sequence (lines 125-129). -/
def DatabaseHandler.configure_paper_account_env (store : PolicyStore)
    (h : DatabaseHandler) (env : String → Option String)
    (paper_account paper_password : Option String) :
    DatabaseHandler × (String → Option String) :=
  let r := DatabaseHandler.should_use_paper_account store h
  if r.result = false then (r.handler, env)
  else if optNonEmpty paper_account = false ∨ optNonEmpty paper_password = false then
    (r.handler, env)
  else
    (r.handler,
      fun k =>
        if k = "IBEAM_PASSWORD" then paper_password
        else if k = "IBEAM_ACCOUNT" then paper_account
        else if k = "IBEAM_USE_PAPER_ACCOUNT" then some "true"
        else env k)

/-!
Interleaving model for the first-call race on `should_use_paper_account`.
The source takes no lock; one call decomposes into three observable phases,
between which another thread can run (the middle phase is blocking network
I/O, during which CPython releases the GIL):
pc 0: test the memo (`db_handler.py` line 32) — if set, return it;
pc 1: connect and query the store (lines 49-68), incrementing the count of
      queries issued;
pc 2: write the memo and return (lines 72-90);
pc 3: done.
-/

/-- Shared state plus the two threads' program counters. -/
structure RaceState where
  memo : Option Bool
  queries : Nat
  pc1 : Nat
  pc2 : Nat
deriving DecidableEq

/-- Program counter of thread `t`. -/
def racePc (s : RaceState) (t : Bool) : Nat :=
  if t then s.pc2 else s.pc1

/-- Set the program counter of thread `t`. -/
def raceSetPc (s : RaceState) (t : Bool) (p : Nat) : RaceState :=
  if t then { s with pc2 := p } else { s with pc1 := p }

/-- One atomic step of thread `t`, where `d` is the decision the store
returns. -/
def raceStep (d : Bool) (s : RaceState) (t : Bool) : RaceState :=
  let pc := racePc s t
  if pc = 0 then
    match s.memo with
    | some _ => raceSetPc s t 3
    | none => raceSetPc s t 1
  else if pc = 1 then
    raceSetPc { s with queries := s.queries + 1 } t 2
  else if pc = 2 then
    raceSetPc { s with memo := some d } t 3
  else s

/-- Run a schedule (a list of thread ids) from the initial state:
memo unset, no queries issued, both threads at their first instruction. -/
def raceRun (d : Bool) (sched : List Bool) : RaceState :=
  sched.foldl (raceStep d) ⟨none, 0, 0, 0⟩

/-! Embedding of `secrets_handler.py`. -/

/-- `SECRETS_SOURCE_ENV` (`secrets_handler.py` line 12). -/
def SECRETS_SOURCE_ENV : String := "env"

/-- `SECRETS_SOURCE_FS` (`secrets_handler.py` line 13). -/
def SECRETS_SOURCE_FS : String := "fs"

/-- `SECRETS_SOURCE_GCP_SECRETS` (`secrets_handler.py` line 14). -/
def SECRETS_SOURCE_GCP_SECRETS : String := "gcp_secrets_manager"

/-- The metadata-token endpoint URL (`secrets_handler.py` line 159). -/
def metadataTokenUrl : String :=
  "http://169.254.169.254/computeMetadata/v1/instance/service-accounts/default/token"

/-- What `.json()[...]` can observe of an HTTP response body: the body is not
JSON (`.json()` raises), the body is JSON but the required field
(`access_token`, resp. `payload.data`) is absent (subscription raises
`KeyError`), or the field is present with a string value. -/
inductive JsonBody
  | notJson
  | missingField
  | field (s : String)
deriving DecidableEq

/-- An HTTP response: status code and body. -/
structure HttpResponse where
  status : Nat
  body : JsonBody
deriving DecidableEq

/-- What `os.path.isfile` + `open`/`read` can observe of a path: not a
regular file, a regular file whose read raises `IOError`, a regular file
whose bytes fail to decode under the configured encoding (`fh.read()` then
raises `UnicodeDecodeError`, which is a `ValueError` and therefore NOT
caught by the `except IOError` at `secrets_handler.py` line 153), or a
regular file with the given decoded text contents. -/
inductive FileOutcome
  | notFile
  | readError
  | decodeFails
  | contents (s : String)
deriving DecidableEq

/-- Externally observable side effects of one `secret_value` call. -/
inductive Effect
  | fileAccess (path : String)
  | httpGet (url : String)
deriving DecidableEq

/-- A Python exception escaping `secret_value` to the caller.
`unicodeError` stands for the `UnicodeDecodeError` (or `LookupError` from an
unknown encoding name) that `fh.read()` raises past the `except IOError`
handler in fs mode. -/
inductive SecError
  | typeError
  | jsonError
  | keyError
  | unicodeError
deriving DecidableEq

/-- The external world `secret_value` interacts with: `os.environ`, the
filesystem, the metadata-token endpoint's response, the secret endpoint's
response per URL, and base64+UTF-8 decoding (`none` models a decode
failure). -/
structure World where
  env : String → Option String
  fs : String → FileOutcome
  tokenResp : HttpResponse
  secretFetch : String → HttpResponse
  b64decode : String → Option String

/-- The `SecretsHandler` instance state (`secrets_handler.py` lines 38-67).
`use_paper_from_db` is `self._use_paper_from_db`; `db_check_done` is
`self._db_check_done`; `dbh` is the owned `DatabaseHandler`. -/
structure SecretsHandler where
  secrets_source : String
  gcp_base_url : Option String
  paper_account : Option String
  paper_password : Option String
  use_paper_from_db : Option Bool
  db_check_done : Bool
  dbh : DatabaseHandler

/-- Embedding of `SecretsHandler.secret_value` (`secrets_handler.py`
lines 69-185), returning the result (`Except` models an escaping Python
exception) together with the list of file/network effects performed.
Faithful points: an unset name returns `None` before any mode dispatch
(lines 121-124); the `fs` branch folds the not-a-file case and the caught
`IOError` into `None` (lines 137-156) but lets a `UnicodeDecodeError` from
`fh.read()` escape, since only `IOError` is caught (line 153); in the GCP
branch
`response.json()['access_token']` (line 164), the `self.gcp_base_url + ...`
concatenation with a `None` base URL (line 167), and
`response2.json()['payload']['data']` (line 173) are OUTSIDE any
`try`/`except` and so raise, while only the base64/UTF-8 decode is guarded
(lines 174-179); an unknown source logs and returns `None` (lines 182-185). -/
def SecretsHandler.secret_value (w : World) (s : SecretsHandler) (name : String)
    (lstrip rstrip : Option String) :
    Except SecError (Option String) × List Effect :=
  match w.env name with
  | none => (.ok none, [])
  | some value =>
    if s.secrets_source = SECRETS_SOURCE_ENV then
      (.ok (some (applyStrips value lstrip rstrip)), [])
    else if s.secrets_source = SECRETS_SOURCE_FS then
      match w.fs value with
      | .notFile => (.ok none, [.fileAccess value])
      | .readError => (.ok none, [.fileAccess value])
      | .decodeFails => (.error .unicodeError, [.fileAccess value])
      | .contents c => (.ok (some (applyStrips c lstrip rstrip)), [.fileAccess value])
    else if s.secrets_source = SECRETS_SOURCE_GCP_SECRETS then
      if w.tokenResp.status ≠ 200 then (.ok none, [.httpGet metadataTokenUrl])
      else
        match w.tokenResp.body with
        | .notJson => (.error .jsonError, [.httpGet metadataTokenUrl])
        | .missingField => (.error .keyError, [.httpGet metadataTokenUrl])
        | .field _tok =>
          match s.gcp_base_url with
          | none => (.error .typeError, [.httpGet metadataTokenUrl])
          | some base =>
            let url := base ++ "/" ++ value ++ ":access"
            let r2 := w.secretFetch url
            if r2.status ≠ 200 then (.ok none, [.httpGet metadataTokenUrl, .httpGet url])
            else
              match r2.body with
              | .notJson => (.error .jsonError, [.httpGet metadataTokenUrl, .httpGet url])
              | .missingField => (.error .keyError, [.httpGet metadataTokenUrl, .httpGet url])
              | .field payload =>
                match w.b64decode payload with
                | none => (.ok none, [.httpGet metadataTokenUrl, .httpGet url])
                | some decoded =>
                  (.ok (some decoded), [.httpGet metadataTokenUrl, .httpGet url])
    else
      (.ok none, [])

/-- Embedding of `SecretsHandler._check_database` (`secrets_handler.py`
lines 188-193): the first call stores the policy decision in
`use_paper_from_db` and sets `db_check_done`; later calls are no-ops. -/
def SecretsHandler.check_database (store : PolicyStore) (s : SecretsHandler) :
    SecretsHandler :=
  if s.db_check_done then s
  else
    let r := DatabaseHandler.should_use_paper_account store s.dbh
    { s with use_paper_from_db := some r.result, dbh := r.handler,
             db_check_done := true }

/-- Embedding of the `account` property (`secrets_handler.py` lines 195-208):
after the database check, if the decision is truthy AND `paper_account` is
truthy, announce the override in the environment (third component `true`
models the `os.environ['IBEAM_USE_PAPER_ACCOUNT'] = 'true'` write) and
return the paper account; otherwise resolve `IBEAM_ACCOUNT` with the default
strips. -/
def SecretsHandler.account (w : World) (store : PolicyStore) (s : SecretsHandler) :
    Except SecError (Option String) × SecretsHandler × Bool :=
  let s1 := SecretsHandler.check_database store s
  if optTrue s1.use_paper_from_db && optNonEmpty s1.paper_account then
    (.ok s1.paper_account, s1, true)
  else
    ((SecretsHandler.secret_value w s1 "IBEAM_ACCOUNT" none (some "\r\n")).fst, s1, false)

/-- Embedding of the `password` property (`secrets_handler.py`
lines 210-221): after the database check, if the decision is truthy AND
`paper_password` is truthy, return the paper password; otherwise resolve
`IBEAM_PASSWORD` with the default strips. -/
def SecretsHandler.password (w : World) (store : PolicyStore) (s : SecretsHandler) :
    Except SecError (Option String) × SecretsHandler :=
  let s1 := SecretsHandler.check_database store s
  if optTrue s1.use_paper_from_db && optNonEmpty s1.paper_password then
    (.ok s1.paper_password, s1)
  else
    ((SecretsHandler.secret_value w s1 "IBEAM_PASSWORD" none (some "\r\n")).fst, s1)

/-- Embedding of the `key` property (`secrets_handler.py` lines 223-226):
it resolves `IBEAM_KEY` directly, with no database check and no override
branch. -/
def SecretsHandler.key (w : World) (s : SecretsHandler) :
    Except SecError (Option String) :=
  (SecretsHandler.secret_value w s "IBEAM_KEY" none (some "\r\n")).fst

/-- Well-formedness of an HTTP response as the GCP branch needs it: either
the status is not 200 (the source then returns `None` without touching the
body) or the body is JSON containing the required field. -/
def respWellFormed (r : HttpResponse) : Prop :=
  r.status ≠ 200 ∨ ∃ s, r.body = .field s

/-! Concrete states used by counterexamples and witnesses. -/

/-- A complete database configuration (machine name "m1"), memo unset. -/
def hFull : DatabaseHandler :=
  ⟨some "dbhost", some "dbuser", none, some "dbname", some "m1", none⟩

/-- A database configuration missing the host, memo unset. -/
def hMissingHost : DatabaseHandler :=
  ⟨none, some "dbuser", none, some "dbname", some "m1", none⟩

/-- A database handler whose memo is already set to `true`. -/
def hMemoTrue : DatabaseHandler :=
  ⟨some "dbhost", some "dbuser", none, some "dbname", some "m1", some true⟩

/-- A store whose `IBEAM` table has the `value` column mapping "m1" to the
integer 1. -/
def storeValueTrue : PolicyStore :=
  ⟨true, true, [("m1", .vInt 1)], []⟩

/-- A store in the legacy shape: no `value` column; the legacy
`use_paper_account` column maps "m1" to boolean `true`. -/
def storeLegacy : PolicyStore :=
  ⟨true, false, [], [("m1", .vBool true)]⟩

/-- A world with an empty environment. -/
def wEmpty : World :=
  ⟨fun _ => none, fun _ => .notFile, ⟨200, .field "tok"⟩,
   fun _ => ⟨200, .field "c2VjcmV0"⟩, fun _ => some "secret"⟩

/-- A world holding live credentials directly in the environment. -/
def wLive : World :=
  ⟨fun k => if k = "IBEAM_ACCOUNT" then some "liveuser"
            else if k = "IBEAM_PASSWORD" then some "livepw"
            else none,
   fun _ => .notFile, ⟨200, .field "tok"⟩, fun _ => ⟨200, .field "x"⟩,
   fun _ => none⟩

/-- A world where `IBEAM_ACCOUNT` names a path whose file holds
"secret123\r\n". -/
def wFs : World :=
  ⟨fun k => if k = "IBEAM_ACCOUNT" then some "/p/acc" else none,
   fun p => if p = "/p/acc" then .contents "secret123\r\n" else .notFile,
   ⟨200, .field "tok"⟩, fun _ => ⟨404, .notJson⟩, fun _ => none⟩

/-- A world where `IBEAM_ACCOUNT` names a path whose regular file's bytes
fail to decode under the configured encoding. -/
def wFsBadEncoding : World :=
  ⟨fun k => if k = "IBEAM_ACCOUNT" then some "/p/acc" else none,
   fun p => if p = "/p/acc" then .decodeFails else .notFile,
   ⟨200, .field "tok"⟩, fun _ => ⟨404, .notJson⟩, fun _ => none⟩

/-- A world whose token endpoint answers HTTP 200 with a non-JSON body. -/
def wGcpBadToken : World :=
  ⟨fun k => if k = "IBEAM_ACCOUNT" then some "sec/versions/1" else none,
   fun _ => .notFile, ⟨200, .notJson⟩, fun _ => ⟨200, .field "x"⟩,
   fun _ => none⟩

/-- Direct-mode secrets handler, database check done with decision `true`,
only the override PASSWORD configured (override account absent). -/
def sMixed : SecretsHandler :=
  ⟨"env", none, none, some "paperpw", some true, true, hMemoTrue⟩

/-- Direct-mode secrets handler, database check done with decision `true`,
both override credentials configured. -/
def sBothPaper : SecretsHandler :=
  ⟨"env", none, some "paperuser", some "paperpw", some true, true, hMemoTrue⟩

/-- fs-mode secrets handler with no override state. -/
def sFs : SecretsHandler :=
  ⟨"fs", none, none, none, none, false, hMissingHost⟩

/-- GCP-mode secrets handler with a base URL configured. -/
def sGcp : SecretsHandler :=
  ⟨"gcp_secrets_manager", some "https://sm.example/v1/projects/p/secrets",
   none, none, none, false, hMissingHost⟩

/-- Direct-mode secrets handler with no override state. -/
def sEnv : SecretsHandler :=
  ⟨"env", none, none, none, none, false, hMissingHost⟩

/-! Helper lemmas shared by several proofs. -/

/-- A memoized handler never queries again and never changes:
`seqQueries` is zero from a memoized state. -/
theorem seqQueries_eq_zero_of_memoized (n : Nat) (store : PolicyStore)
    (h : DatabaseHandler) (b : Bool) (hb : h.use_paper = some b) :
    seqQueries n store h = 0 := by
  induction n with
  | zero => rfl
  | succ n ih =>
    simp [seqQueries, DatabaseHandler.should_use_paper_account, hb]
    exact ih

/-- A handler with missing configuration and an unset memo never queries:
`seqQueries` is zero from such a state. -/
theorem seqQueries_eq_zero_of_missing (n : Nat) (store : PolicyStore)
    (h : DatabaseHandler) (hb : h.use_paper = none)
    (hc : h.missingConfig = true) :
    seqQueries n store h = 0 := by
  induction n with
  | zero => rfl
  | succ n ih =>
    simp [seqQueries, DatabaseHandler.should_use_paper_account, hb, hc]
    exact ih

/-! Claim theorems. -/

/-- C3 counterexample: with the store host absent, the first call to
`should_use_paper_account` returns false but does NOT set the memo — the
gate is not in the Checked state afterwards, contrary to the claim that
missing configuration transitions to `Checked(false)`. -/
theorem missing_config_does_not_memoize :
    (DatabaseHandler.should_use_paper_account storeValueTrue hMissingHost).result = false
    ∧ (DatabaseHandler.should_use_paper_account storeValueTrue hMissingHost).handler.use_paper
        = none :=
  ⟨rfl, rfl⟩

/-- C3 (amended): a memoized decision is never recomputed — any later call
returns it unchanged with no store access, regardless of the store's or the
configuration's later state; a call with missing configuration returns false
WITHOUT setting the memo (the gate stays NotChecked) and issues no store
access either; and a first call with complete configuration always leaves
the memo set to the decision it returns. -/
theorem policy_memoization_behavior :
    (∀ store h b, h.use_paper = some b →
      DatabaseHandler.should_use_paper_account store h = ⟨b, h, false⟩)
    ∧ (∀ store h, h.use_paper = none → h.missingConfig = true →
      DatabaseHandler.should_use_paper_account store h = ⟨false, h, false⟩)
    ∧ (∀ store h, h.use_paper = none → h.missingConfig = false →
      (DatabaseHandler.should_use_paper_account store h).handler.use_paper
        = some (DatabaseHandler.should_use_paper_account store h).result) := by
  refine ⟨?_, ?_, ?_⟩
  · intro store h b hb
    simp [DatabaseHandler.should_use_paper_account, hb]
  · intro store h hb hm
    simp [DatabaseHandler.should_use_paper_account, hb, hm]
  · intro store h hb hm
    cases hq : runQuery store (h.machine_name.getD "") <;>
      simp [DatabaseHandler.should_use_paper_account, hb, hm, hq]

/-- C3 witness: a handler memoized to `true` returns `true`, unchanged, with
no query, against a store that would now say otherwise. -/
theorem policy_memoization_witness :
    DatabaseHandler.should_use_paper_account storeLegacy hMemoTrue
      = ⟨true, hMemoTrue, false⟩ :=
  policy_memoization_behavior.1 storeLegacy hMemoTrue true rfl

/-- C4 counterexample: the source takes no mutex or once-primitive; in the
interleaving where both first-time callers pass the memo test
(`db_handler.py` line 32) before either has written the memo, BOTH issue a
store query — two queries in one process lifetime, contradicting the claimed
at-most-one guarantee under concurrent first-time callers. -/
theorem concurrent_first_calls_two_queries :
    (raceRun true [false, true, false, true, false, true]).queries = 2 := by
  rfl

/-- C4 (amended): under sequential (non-concurrent) calls, at most one store
query is issued per process lifetime: any call that queries writes the memo,
after which every later call returns it without I/O, and a call blocked on
missing configuration performs no I/O at all.  (The code performs no
serialization, so concurrent first-time callers may each issue a query, as
the counterexample interleaving shows.) -/
theorem sequential_calls_at_most_one_query (n : Nat) (store : PolicyStore)
    (h : DatabaseHandler) : seqQueries n store h ≤ 1 := by
  induction n generalizing h with
  | zero => simp [seqQueries]
  | succ n ih =>
    cases hm : h.use_paper with
    | some b =>
      rw [seqQueries_eq_zero_of_memoized (n + 1) store h b hm]
      omega
    | none =>
      cases hc : h.missingConfig with
      | true =>
        rw [seqQueries_eq_zero_of_missing (n + 1) store h hm hc]
        omega
      | false =>
        have hmem : ∃ b,
            (DatabaseHandler.should_use_paper_account store h).handler.use_paper
              = some b := by
          cases hq : runQuery store (h.machine_name.getD "") <;>
            simp [DatabaseHandler.should_use_paper_account, hm, hc, hq]
        obtain ⟨b, hb⟩ := hmem
        have hz := seqQueries_eq_zero_of_memoized n store
          (DatabaseHandler.should_use_paper_account store h).handler b hb
        cases hq : (DatabaseHandler.should_use_paper_account store h).queried <;>
          simp [seqQueries, hz, hq]

/-- C5 counterexample: the source's SQL projects only the `value` column;
under the legacy shape (no `value` column, a `use_paper_account` column
mapping the identity "m1" to `true`) the query raises and the call yields
false, even though the legacy row's decision normalizes to true — the
legacy column is NOT supported. -/
theorem legacy_column_not_supported :
    (DatabaseHandler.should_use_paper_account storeLegacy hFull).result = false
    ∧ storeLegacy.legacyRows = [("m1", DBValue.vBool true)]
    ∧ normalizeDBValue (DBValue.vBool true) = true :=
  ⟨rfl, rfl, rfl⟩

/-- C5 (amended): only the generic `value` column is supported.  With
complete configuration and an unset memo: when the store connects and the
table has the `value` column, a matching row for the identity name yields
that row's normalized decision; when the table has only the legacy shape
(no `value` column), the call yields false and memoizes false regardless of
any legacy-column content. -/
theorem value_column_lookup_behavior (store : PolicyStore)
    (h : DatabaseHandler) (m : String) (v : DBValue)
    (hmemo : h.use_paper = none) (hmc : h.missingConfig = false)
    (hm : h.machine_name = some m) :
    (store.connects = true → store.hasValueColumn = true →
      store.valueRows.find? (fun p => p.1 == m) = some (m, v) →
      (DatabaseHandler.should_use_paper_account store h).result
        = normalizeDBValue v)
    ∧ (store.connects = true → store.hasValueColumn = false →
      (DatabaseHandler.should_use_paper_account store h).result = false
      ∧ (DatabaseHandler.should_use_paper_account store h).handler.use_paper
          = some false) := by
  constructor
  · intro hc hv hf
    simp [DatabaseHandler.should_use_paper_account, hmemo, hmc, runQuery,
          hc, hv, hm, hf]
  · intro hc hv
    simp [DatabaseHandler.should_use_paper_account, hmemo, hmc, runQuery,
          hc, hv, hm]

/-- C5 witness: the value-column shape with `value = 1` (int) for "m1"
yields that row's normalized decision. -/
theorem value_column_lookup_witness :
    (DatabaseHandler.should_use_paper_account storeValueTrue hFull).result
      = normalizeDBValue (DBValue.vInt 1) :=
  (value_column_lookup_behavior storeValueTrue hFull "m1" (DBValue.vInt 1)
    rfl rfl rfl).1 rfl rfl rfl

/-- C6: the decision-column normalization matches the spec's precedence —
native boolean as-is, integer via nonzero test, string via case-insensitive
membership in the set true/1/yes/on, any other type false — and in
particular int 1 ↦ true, string "TRUE" ↦ true, string "0" ↦ false, boolean
false ↦ false, and a value of any other type (e.g. a list) ↦ false. -/
theorem decision_normalization_spec :
    (∀ v, normalizeDBValue v = normalizeDecisionSpec v)
    ∧ normalizeDBValue (.vInt 1) = true
    ∧ normalizeDBValue (.vStr "TRUE") = true
    ∧ normalizeDBValue (.vStr "0") = false
    ∧ normalizeDBValue (.vBool false) = false
    ∧ normalizeDBValue .vOther = false := by
  refine ⟨fun v => ?_, by decide, by decide, by decide, rfl, rfl⟩
  cases v with
  | vBool b => rfl
  | vInt n =>
    by_cases h : n = 0 <;> simp [normalizeDBValue, normalizeDecisionSpec, bne, h]
  | vStr s => simp [normalizeDBValue, normalizeDecisionSpec, List.elem_eq_mem]
  | vOther => rfl

/-- C1 counterexample: decision true with only the override password
configured (override account absent): `account` returns the live name
resolved from the environment ("liveuser") while `password` returns the
override password ("paperpw", distinct from the live password "livepw" held
in the environment) — a live account name paired with an override
password. -/
theorem account_password_mixed_family :
    (SecretsHandler.account wLive storeLegacy sMixed).1 = .ok (some "liveuser")
    ∧ (SecretsHandler.password wLive storeLegacy sMixed).1 = .ok (some "paperpw")
    ∧ sMixed.paper_account = none
    ∧ sMixed.paper_password = some "paperpw"
    ∧ wLive.env "IBEAM_ACCOUNT" = some "liveuser"
    ∧ wLive.env "IBEAM_PASSWORD" = some "livepw" :=
  ⟨rfl, rfl, rfl, rfl, rfl, rfl⟩

/-- C1 (amended): once the database check has completed, `account` and
`password` agree on the account family PROVIDED the override account and
override password are equally present (both truthy or both not): either
both return the override pair, or both resolve the default names through
`secret_value`.  (The counterexample shows agreement can fail when exactly
one override value is configured.) -/
theorem account_password_agree_of_matching_override_presence
    (w : World) (store : PolicyStore) (s : SecretsHandler)
    (hdone : s.db_check_done = true)
    (hpres : optNonEmpty s.paper_account = optNonEmpty s.paper_password) :
    ((SecretsHandler.account w store s).1 = .ok s.paper_account
      ∧ (SecretsHandler.password w store s).1 = .ok s.paper_password)
    ∨ ((SecretsHandler.account w store s).1
        = (SecretsHandler.secret_value w s "IBEAM_ACCOUNT" none (some "\r\n")).fst
      ∧ (SecretsHandler.password w store s).1
        = (SecretsHandler.secret_value w s "IBEAM_PASSWORD" none (some "\r\n")).fst) := by
  have hcd : SecretsHandler.check_database store s = s := by
    simp [SecretsHandler.check_database, hdone]
  cases hu : optTrue s.use_paper_from_db with
  | false =>
    right
    constructor <;> simp [SecretsHandler.account, SecretsHandler.password, hcd, hu]
  | true =>
    cases hpa : optNonEmpty s.paper_account with
    | false =>
      have hpp : optNonEmpty s.paper_password = false := by rw [← hpres]; exact hpa
      right
      constructor <;>
        simp [SecretsHandler.account, SecretsHandler.password, hcd, hu, hpa, hpp]
    | true =>
      have hpp : optNonEmpty s.paper_password = true := by rw [← hpres]; exact hpa
      left
      constructor <;>
        simp [SecretsHandler.account, SecretsHandler.password, hcd, hu, hpa, hpp]

/-- C1 witness: with both override credentials configured and decision true,
both accessors return the override pair. -/
theorem account_password_agree_witness :
    ((SecretsHandler.account wLive storeLegacy sBothPaper).1
        = .ok sBothPaper.paper_account
      ∧ (SecretsHandler.password wLive storeLegacy sBothPaper).1
        = .ok sBothPaper.paper_password)
    ∨ ((SecretsHandler.account wLive storeLegacy sBothPaper).1
        = (SecretsHandler.secret_value wLive sBothPaper "IBEAM_ACCOUNT" none (some "\r\n")).fst
      ∧ (SecretsHandler.password wLive storeLegacy sBothPaper).1
        = (SecretsHandler.secret_value wLive sBothPaper "IBEAM_PASSWORD" none (some "\r\n")).fst) :=
  account_password_agree_of_matching_override_presence wLive storeLegacy sBothPaper rfl rfl

/-- C2 counterexample: two exception paths at concrete inputs.  In GCP
mode, a token endpoint answering HTTP 200 with a non-JSON body makes
`response.json()` (source line 164, outside any `try`) raise; in fs mode, a
regular file whose bytes fail to decode under the configured encoding makes
`fh.read()` raise `UnicodeDecodeError`, which the `except IOError` handler
(line 153) does not catch.  Both exceptions escape `secret_value` to the
caller instead of being converted to `None`. -/
theorem secret_value_raises_on_malformed_token_json :
    (SecretsHandler.secret_value wGcpBadToken sGcp "IBEAM_ACCOUNT" none (some "\r\n")).fst
      = .error .jsonError
    ∧ (SecretsHandler.secret_value wFsBadEncoding sFs "IBEAM_ACCOUNT" none (some "\r\n")).fst
      = .error .unicodeError :=
  ⟨rfl, rfl⟩

/-- C2 (amended): no exception escapes `secret_value` in Direct or
unrecognized-mode resolution; in FileIndirect mode none escapes provided
every referenced file's bytes decode under the configured encoding (a
`UnicodeDecodeError` from `fh.read()` passes the `except IOError` handler);
in ManagedFetch mode none escapes provided the base URL is configured and
the token and secret responses are well-formed (non-200, or JSON carrying
the required field).  Without these provisos the claim fails, as the
counterexample's two paths show. -/
theorem secret_value_no_exception_when_responses_wellformed
    (w : World) (s : SecretsHandler) (name : String)
    (lstrip rstrip : Option String)
    (hfs : s.secrets_source = SECRETS_SOURCE_FS →
      ∀ p, w.fs p ≠ .decodeFails)
    (hgcp : s.secrets_source = SECRETS_SOURCE_GCP_SECRETS →
      s.gcp_base_url.isSome = true ∧ respWellFormed w.tokenResp
      ∧ ∀ u, respWellFormed (w.secretFetch u)) :
    ∃ v, (SecretsHandler.secret_value w s name lstrip rstrip).fst = .ok v := by
  unfold SecretsHandler.secret_value
  cases henv : w.env name with
  | none => exact ⟨none, rfl⟩
  | some value =>
    by_cases h1 : s.secrets_source = SECRETS_SOURCE_ENV
    · exact ⟨some (applyStrips value lstrip rstrip), by simp [h1]⟩
    · by_cases h2 : s.secrets_source = SECRETS_SOURCE_FS
      · cases hf : w.fs value with
        | notFile => exact ⟨none, by simp [h1, h2, hf, SECRETS_SOURCE_ENV, SECRETS_SOURCE_FS, SECRETS_SOURCE_GCP_SECRETS]⟩
        | readError => exact ⟨none, by simp [h1, h2, hf, SECRETS_SOURCE_ENV, SECRETS_SOURCE_FS, SECRETS_SOURCE_GCP_SECRETS]⟩
        | decodeFails => exact absurd hf (hfs h2 value)
        | contents c => exact ⟨some (applyStrips c lstrip rstrip), by simp [h1, h2, hf, SECRETS_SOURCE_ENV, SECRETS_SOURCE_FS, SECRETS_SOURCE_GCP_SECRETS]⟩
      · by_cases h3 : s.secrets_source = SECRETS_SOURCE_GCP_SECRETS
        · obtain ⟨hb, ht, hs⟩ := hgcp h3
          by_cases hst : w.tokenResp.status = 200
          · have htok : ∃ tok, w.tokenResp.body = .field tok := by
              cases ht with
              | inl hne => exact absurd hst hne
              | inr hf => exact hf
            obtain ⟨tok, htok⟩ := htok
            obtain ⟨base, hbase⟩ := Option.isSome_iff_exists.mp hb
            by_cases hst2 : (w.secretFetch (base ++ "/" ++ value ++ ":access")).status = 200
            · have hsec : ∃ p,
                  (w.secretFetch (base ++ "/" ++ value ++ ":access")).body = .field p := by
                cases hs (base ++ "/" ++ value ++ ":access") with
                | inl hne => exact absurd hst2 hne
                | inr hf => exact hf
              obtain ⟨p, hsec⟩ := hsec
              cases hdec : w.b64decode p with
              | none =>
                exact ⟨none, by simp [h1, h2, h3, hst, htok, hbase, hst2, hsec, hdec, SECRETS_SOURCE_ENV, SECRETS_SOURCE_FS, SECRETS_SOURCE_GCP_SECRETS]⟩
              | some d =>
                exact ⟨some d, by simp [h1, h2, h3, hst, htok, hbase, hst2, hsec, hdec, SECRETS_SOURCE_ENV, SECRETS_SOURCE_FS, SECRETS_SOURCE_GCP_SECRETS]⟩
            · exact ⟨none, by simp [h1, h2, h3, hst, htok, hbase, hst2, SECRETS_SOURCE_ENV, SECRETS_SOURCE_FS, SECRETS_SOURCE_GCP_SECRETS]⟩
          · exact ⟨none, by simp [h1, h2, h3, hst, SECRETS_SOURCE_ENV, SECRETS_SOURCE_FS, SECRETS_SOURCE_GCP_SECRETS]⟩
        · exact ⟨none, by simp [h1, h2, h3]⟩

/-- C2 witness: in Direct mode both provisos are vacuous and resolution
returns a value without an exception. -/
theorem secret_value_no_exception_witness :
    ∃ v, (SecretsHandler.secret_value wLive sEnv "IBEAM_ACCOUNT" none (some "\r\n")).fst
      = .ok v :=
  secret_value_no_exception_when_responses_wellformed wLive sEnv "IBEAM_ACCOUNT"
    none (some "\r\n") (fun hc => absurd hc (by decide))
    (fun hc => absurd hc (by decide))

/-- C7: in fs mode, a configured name whose value is an existing regular
file resolves to exactly the file's contents with the default right-trim of
trailing CR/LF applied and no left-trim; a value that does not reference an
existing regular file resolves to `None`, not an exception. -/
theorem fs_mode_resolution (w : World) (s : SecretsHandler)
    (name v c : String)
    (hsrc : s.secrets_source = SECRETS_SOURCE_FS)
    (henv : w.env name = some v) :
    (w.fs v = .contents c →
      (SecretsHandler.secret_value w s name none (some "\r\n")).fst
        = .ok (some (pyRstrip c "\r\n")))
    ∧ (w.fs v = .notFile →
      (SecretsHandler.secret_value w s name none (some "\r\n")).fst = .ok none) := by
  constructor <;> intro hf <;>
    simp [SecretsHandler.secret_value, henv, hsrc, hf, applyStrips,
          SECRETS_SOURCE_ENV, SECRETS_SOURCE_FS]

/-- C7 witness: "secret123\r\n" on disk resolves to "secret123". -/
theorem fs_mode_resolution_witness :
    (SecretsHandler.secret_value wFs sFs "IBEAM_ACCOUNT" none (some "\r\n")).fst
      = .ok (some "secret123") := by
  have h := (fs_mode_resolution wFs sFs "IBEAM_ACCOUNT" "/p/acc" "secret123\r\n"
    rfl rfl).1 rfl
  rw [h]
  rfl

/-- C8: for every source mode, resolving a name unset in the environment
returns `None` — no exception, and no file or network effect is
performed. -/
theorem unset_name_returns_none_all_modes (w : World) (s : SecretsHandler)
    (name : String) (lstrip rstrip : Option String)
    (h : w.env name = none) :
    SecretsHandler.secret_value w s name lstrip rstrip = (.ok none, []) := by
  simp [SecretsHandler.secret_value, h]

/-- C8 witness: an unset name in GCP mode still resolves to `None` with no
effects. -/
theorem unset_name_witness :
    SecretsHandler.secret_value wEmpty sGcp "IBEAM_ACCOUNT" none (some "\r\n")
      = (.ok none, []) :=
  unset_name_returns_none_all_modes wEmpty sGcp "IBEAM_ACCOUNT" none (some "\r\n") rfl

/-- C9: the `key` accessor equals `secret_value` of `IBEAM_KEY` with the
default strips and is unaffected by the override state: changing the paper
credentials, the memoized decision, the check flag, or the database handler
leaves its result unchanged, and it performs no database check. -/
theorem key_independent_of_override (w : World) (s : SecretsHandler)
    (pa pp : Option String) (upd : Option Bool) (dcd : Bool)
    (dbh2 : DatabaseHandler) :
    SecretsHandler.key w { s with paper_account := pa, paper_password := pp,
                                  use_paper_from_db := upd, db_check_done := dcd,
                                  dbh := dbh2 }
      = SecretsHandler.key w s
    ∧ SecretsHandler.key w s
      = (SecretsHandler.secret_value w s "IBEAM_KEY" none (some "\r\n")).fst :=
  ⟨rfl, rfl⟩

/-- C10: `configure_paper_account_env` is all-or-nothing on the environment:
when the policy call returns true and both paper credentials are truthy it
writes exactly the three entries (`IBEAM_USE_PAPER_ACCOUNT = "true"`, the
paper account, the paper password) leaving every other key unchanged; in
every other case the environment is returned entirely unchanged. -/
theorem configure_paper_account_env_all_or_nothing (store : PolicyStore)
    (h : DatabaseHandler) (env : String → Option String)
    (pa pp : Option String) :
    ((DatabaseHandler.should_use_paper_account store h).result = true →
      optNonEmpty pa = true → optNonEmpty pp = true →
      (DatabaseHandler.configure_paper_account_env store h env pa pp).2
          "IBEAM_USE_PAPER_ACCOUNT" = some "true"
      ∧ (DatabaseHandler.configure_paper_account_env store h env pa pp).2
          "IBEAM_ACCOUNT" = pa
      ∧ (DatabaseHandler.configure_paper_account_env store h env pa pp).2
          "IBEAM_PASSWORD" = pp
      ∧ ∀ k, k ≠ "IBEAM_USE_PAPER_ACCOUNT" → k ≠ "IBEAM_ACCOUNT" →
          k ≠ "IBEAM_PASSWORD" →
          (DatabaseHandler.configure_paper_account_env store h env pa pp).2 k
            = env k)
    ∧ (¬((DatabaseHandler.should_use_paper_account store h).result = true
          ∧ optNonEmpty pa = true ∧ optNonEmpty pp = true) →
      (DatabaseHandler.configure_paper_account_env store h env pa pp).2 = env) := by
  constructor
  · intro hres hpa hpp
    refine ⟨?_, ?_, ?_, ?_⟩
    · simp [DatabaseHandler.configure_paper_account_env, hres, hpa, hpp]
    · simp [DatabaseHandler.configure_paper_account_env, hres, hpa, hpp]
    · simp [DatabaseHandler.configure_paper_account_env, hres, hpa, hpp]
    · intro k h1 h2 h3
      simp [DatabaseHandler.configure_paper_account_env, hres, hpa, hpp, h1, h2, h3]
  · intro hn
    cases hr : (DatabaseHandler.should_use_paper_account store h).result with
    | false => simp [DatabaseHandler.configure_paper_account_env, hr]
    | true =>
      cases hpa : optNonEmpty pa with
      | false => simp [DatabaseHandler.configure_paper_account_env, hr, hpa]
      | true =>
        cases hpp : optNonEmpty pp with
        | false => simp [DatabaseHandler.configure_paper_account_env, hr, hpa, hpp]
        | true => exact absurd ⟨hr, hpa, hpp⟩ hn

/-- C10 witness: with the store answering `value = 1` for "m1" and both
paper credentials supplied, the environment receives the paper account. -/
theorem configure_paper_env_witness :
    (DatabaseHandler.configure_paper_account_env storeValueTrue hFull
        (fun _ => none) (some "paperuser") (some "paperpw")).2 "IBEAM_ACCOUNT"
      = some "paperuser" :=
  ((configure_paper_account_env_all_or_nothing storeValueTrue hFull
      (fun _ => none) (some "paperuser") (some "paperpw")).1
    (by decide) (by decide) (by decide)).2.1
